import Mathlib

/-!
Verification of the ovirt-python-backup orchestration logic.

This file gives a shallow embedding of the backup orchestration in
src/backupvm.py (the argparse variant, called v1 below) and
src/backupvm2.py (the older hard-coded variant, called v2 below), and
proves properties of the guard lifecycle, failure handling, device
resolution and retention rotation.

Remote calls and filesystem operations are modelled as events of an
inductive type; a run of the orchestrator is a pure function from an
environment (the behaviour of the remote platform, the local devices and
the copy processes) to the list of events it issues plus its outcome.
-/

namespace OvirtBackup

/-- Snapshot status as polled from the platform (ovirtsdk4 SnapshotStatus;
only the two values the code inspects are modelled). -/
inductive SnapStatus where
  | locked
  | ok
deriving DecidableEq

/-- Result of the snapshot wait loop in AutoSnapshotService enter
(backupvm.py lines 44-66).  In both constructors the argument is the
number of completed loop iterations; each iteration performs exactly one
status fetch attempt and one sleep of 2 seconds, so it is both the number
of fetch attempts and the number of poll delays executed. -/
inductive SnapRes where
  | entered (tries : Nat)
  | timeout (tries : Nat)
deriving DecidableEq

/-- Remote calls and local filesystem operations issued by a run.  The Nat
argument of the per-disk events is the zero-based index of the disk in the
listing returned by the snapshot disks service. -/
inductive Ev where
  | mkRunDir
  | snapCreate
  | snapRemove
  | rmRunDir
  | writeOK
  | migrateTry
  | migrateFailLog
  | attachCreate (i : Nat)
  | attachRemove (i : Nat)
  | copy (i : Nat)
  | copyFailLog (i : Nat)
deriving DecidableEq

/-- Outcome of a run.  snapTimeout is the SnapshotError raised by the wait
loop; attachFailed is an sdk.Error from the disk_attachments_service add
call; deviceNotFound and copyFailed are the BackupError raised by
Backup._find_data_disk and Backup._copy_disk; migrateFailed is an
exception escaping the unguarded migration call in backupvm2.py;
spinning stands for the unbounded v2 poll loop not having returned within
the modelled fuel. -/
inductive Outcome where
  | ok
  | snapTimeout
  | attachFailed (i : Nat)
  | deviceNotFound (i : Nat)
  | copyFailed (i : Nat)
  | migrateFailed
  | spinning
deriving DecidableEq

/-- Errors raised by the device resolution helper (the source raises
BackupError; the spec taxonomy calls this case DeviceNotFound). -/
inductive Err where
  | deviceNotFound
deriving DecidableEq

/-- Snapshot wait loop of AutoSnapshotService enter, backupvm.py lines
48-62.  The source iterates `while snapstatus != OK`, raising once
`tries > maxtries`; each iteration attempts one status fetch (an exception
during the fetch is caught and leaves the status unchanged, modelled by
Option.getD), increments tries and sleeps.  The loop variable here is
`rem = maxtries + 1 - tries`, which reaches 0 exactly when
`tries = maxtries + 1`, the first value at which the source raises.
`fetch t` is the result of the fetch attempt of iteration `t` (none models
a fetch that raised). -/
def snapLoop1 (fetch : Nat → Option SnapStatus) : Nat → SnapStatus → Nat → SnapRes
  | 0, status, tries =>
      if status = SnapStatus.ok then SnapRes.entered tries else SnapRes.timeout tries
  | Nat.succ rem, status, tries =>
      if status = SnapStatus.ok then SnapRes.entered tries
      else snapLoop1 fetch rem ((fetch tries).getD status) (tries + 1)

/-- AutoSnapshotService enter for backupvm.py: the loop starts with status
LOCKED, tries = 0 and maxtries = 50 (line 48). -/
def snapEnter (fetch : Nat → Option SnapStatus) (maxtries : Nat) : SnapRes :=
  snapLoop1 fetch (maxtries + 1) SnapStatus.locked 0

/-- Snapshot wait loop of AutoSnapshotService enter in backupvm2.py lines
49-50: `while get().snapshot_status != OK: sleep(1)`, with no bound on the
number of attempts.  The unbounded loop is modelled with fuel; `some s`
means the body was entered after exactly `s` sleeps (`s` fetches observed
a non-ok status and the fetch with index `s` observed ok). -/
def snapLoop2 (fetch : Nat → SnapStatus) : Nat → Nat → Option Nat
  | 0, _ => none
  | Nat.succ fuel, i =>
      if fetch i = SnapStatus.ok then some i else snapLoop2 fetch fuel (i + 1)

/-- Retry loop of Backup._find_data_disk, backupvm.py lines 379-396:
`while tries < maxtries` with maxtries = 6; each iteration scans
/sys/block for a device whose serial file equals the first 20 characters
of the disk id, returning /dev/(name) on a match and sleeping 5 seconds
otherwise; after 6 failed scans it raises BackupError.  `scan t` abstracts
the scan of iteration `t` (the matched block device name, if any); the
loop variable is `rem = maxtries - tries`. -/
def findLoop (scan : Nat → Option String) : Nat → Nat → Except Err String
  | 0, _ => Except.error Err.deviceNotFound
  | Nat.succ rem, tries =>
      match scan tries with
      | some disk => Except.ok ("/dev/" ++ disk)
      | none => findLoop scan rem (tries + 1)

/-- Backup._find_data_disk with the hard-coded bound maxtries = 6
(backupvm.py line 381). -/
def findDataDisk (scan : Nat → Option String) : Except Err String :=
  findLoop scan 6 0

/-- Resolver stub for the spec scenario: the device is absent for the
first k scans and present (with block device name d) from scan k on. -/
def stubScan (k : Nat) (d : String) : Nat → Option String :=
  fun i => if i < k then none else some d

/-- Environment of one backupvm.py run: the snapshot status fetch results,
the number of disks listed for the snapshot, whether the attachment add
call of each disk succeeds, the per-disk device scan results, the dd exit
code of each disk, and the migration flag and result. -/
structure Env where
  fetch : Nat → Option SnapStatus
  numDisks : Nat
  attachOk : Nat → Bool
  device : Nat → Nat → Option String
  copyExit : Nat → Nat
  migrateFlag : Bool
  migrateOk : Bool

/-- Replace the migration result of an environment, leaving every other
field unchanged. -/
def setMigrateOk (e : Env) (b : Bool) : Env :=
  ⟨e.fetch, e.numDisks, e.attachOk, e.device, e.copyExit, e.migrateFlag, b⟩

/-- Events issued by the migration step of backupvm.py lines 140-146: the
migration is attempted only when the flag is set, and an exception from it
is caught and logged (the run continues either way). -/
def migrateEvents : Bool → Bool → List Ev
  | false, _ => []
  | true, true => [Ev.migrateTry]
  | true, false => [Ev.migrateTry, Ev.migrateFailLog]

/-- One iteration of the disk loop of Backup._backup_snapshot_disks,
backupvm.py lines 310-328, together with Backup._copy_disk (330-376): the
attachment add call (which may raise sdk.Error, in which case no
attachment was created); then, inside the attachment guard, device
resolution (BackupError on exhaustion) and the dd copy (BackupError on a
non-zero exit).  The guard exit always issues the attachment remove, also
when the body raised.  Returns the events of the iteration and the error
aborting the loop, if any. -/
def diskStep1 (env : Env) (i : Nat) : List Ev × Option Outcome :=
  if env.attachOk i = true then
    match findDataDisk (env.device i) with
    | Except.error _ =>
        ([Ev.attachCreate i, Ev.attachRemove i], some (Outcome.deviceNotFound i))
    | Except.ok _ =>
        if env.copyExit i = 0 then
          ([Ev.attachCreate i, Ev.copy i, Ev.attachRemove i], none)
        else
          ([Ev.attachCreate i, Ev.copy i, Ev.attachRemove i], some (Outcome.copyFailed i))
  else ([], some (Outcome.attachFailed i))

/-- The disk loop of Backup._backup_snapshot_disks for disks i, i+1, ...
(n disks remaining): sequential, aborting at the first failing disk. -/
def diskLoop1 (env : Env) : Nat → Nat → List Ev × Option Outcome
  | _, 0 => ([], none)
  | i, Nat.succ n =>
      match diskStep1 env i with
      | (evs, some o) => (evs, some o)
      | (evs, none) =>
          (evs ++ (diskLoop1 env (i + 1) n).1, (diskLoop1 env (i + 1) n).2)

/-- Backup.run of backupvm.py lines 114-176.  The run directory is created
and the snapshot add call issued; then the snapshot guard is entered.  If
the wait loop times out, the raised SnapshotError is caught neither by the
`except (sdk.Error, BackupError)` handler of run (line 172) nor anywhere
else, so the run directory is not removed.  Once the guard is entered, the
optional migration and the disk loop execute; the guard exit issues the
snapshot remove on both the normal and the exception path; on an
sdk.Error or BackupError the handler removes the run directory and
re-raises, while on success the old backups are rotated and the OK
completion marker is written. -/
def run1 (env : Env) : List Ev × Outcome :=
  match snapEnter env.fetch 50 with
  | SnapRes.timeout _ => ([Ev.mkRunDir, Ev.snapCreate], Outcome.snapTimeout)
  | SnapRes.entered _ =>
      match diskLoop1 env 0 env.numDisks with
      | (devs, some o) =>
          ([Ev.mkRunDir, Ev.snapCreate] ++ migrateEvents env.migrateFlag env.migrateOk
            ++ devs ++ [Ev.snapRemove, Ev.rmRunDir], o)
      | (devs, none) =>
          ([Ev.mkRunDir, Ev.snapCreate] ++ migrateEvents env.migrateFlag env.migrateOk
            ++ devs ++ [Ev.snapRemove, Ev.writeOK], Outcome.ok)

/-- Process-level result of main in backupvm.py lines 424-431: the pair of
the process exit status and whether the failure message naming the log
file was printed to stderr.  main catches sdk.Error and BackupError,
prints the message and then falls off the end of the function without
calling sys.exit, so the interpreter exits with status 0; a SnapshotError
is caught nowhere, so the interpreter prints a traceback (which does not
name the log file) and exits with status 1; on success main returns
normally with status 0. -/
def mainResult : Outcome → Nat × Bool
  | Outcome.ok => (0, false)
  | Outcome.snapTimeout => (1, false)
  | Outcome.attachFailed _ => (0, true)
  | Outcome.deviceNotFound _ => (0, true)
  | Outcome.copyFailed _ => (0, true)
  | Outcome.migrateFailed => (1, false)
  | Outcome.spinning => (1, false)

/-- Exit status and stderr reporting of one full backupvm.py invocation. -/
def mainRun (env : Env) : Nat × Bool :=
  mainResult (run1 env).2

/-- Environment of one backupvm2.py run.  The status fetch is total (v2
has no try/except around the fetch), the device lookup is a single glob
with no retry (backupvm2.py lines 219-235), and dd exit codes are only
logged. -/
structure Env2 where
  fetch : Nat → SnapStatus
  numDisks : Nat
  deviceFound : Nat → Bool
  copyExit : Nat → Nat
  migrateOk : Bool

/-- One iteration of the disk loop of backupvm2.py lines 182-198 with
_copy_disk (200-217): device lookup failure raises BackupError (attachment
removed by the guard, loop aborted), while a non-zero dd exit is only
logged (line 217) and the loop continues with the next disk. -/
def diskStep2 (env : Env2) (i : Nat) : List Ev × Option Outcome :=
  if env.deviceFound i = true then
    if env.copyExit i = 0 then
      ([Ev.attachCreate i, Ev.copy i, Ev.attachRemove i], none)
    else
      ([Ev.attachCreate i, Ev.copy i, Ev.copyFailLog i, Ev.attachRemove i], none)
  else ([Ev.attachCreate i, Ev.attachRemove i], some (Outcome.deviceNotFound i))

/-- The disk loop of backupvm2.py for disks i, i+1, ... (n remaining). -/
def diskLoop2 (env : Env2) : Nat → Nat → List Ev × Option Outcome
  | _, 0 => ([], none)
  | i, Nat.succ n =>
      match diskStep2 env i with
      | (evs, some o) => (evs, some o)
      | (evs, none) =>
          (evs ++ (diskLoop2 env (i + 1) n).1, (diskLoop2 env (i + 1) n).2)

/-- Backup.run of backupvm2.py lines 89-115.  The unbounded snapshot wait
is modelled with fuel.  Migration is called with no surrounding
try/except (line 113), so an exception from it unwinds through the
snapshot guard (which still removes the snapshot) and aborts the run
before any disk is attached; backupvm2.py has no run directory cleanup
and no completion marker at all. -/
def run2 (fuel : Nat) (env : Env2) : List Ev × Outcome :=
  match snapLoop2 env.fetch fuel 0 with
  | none => ([Ev.mkRunDir, Ev.snapCreate], Outcome.spinning)
  | some _ =>
      if env.migrateOk = true then
        match diskLoop2 env 0 env.numDisks with
        | (devs, some o) =>
            ([Ev.mkRunDir, Ev.snapCreate, Ev.migrateTry] ++ devs ++ [Ev.snapRemove], o)
        | (devs, none) =>
            ([Ev.mkRunDir, Ev.snapCreate, Ev.migrateTry] ++ devs ++ [Ev.snapRemove],
              Outcome.ok)
      else ([Ev.mkRunDir, Ev.snapCreate, Ev.migrateTry, Ev.snapRemove],
              Outcome.migrateFailed)

/-- Backup._remove_old_backups, backupvm.py lines 193-205: the OK marker
files of the prior runs, sorted ascending (glob results sorted with
key=str.lower; timestamp-named, so lexicographic order is chronological),
are popped from the front (the oldest) while more than num_backups remain;
each popped marker is deleted together with its run directory.  Timestamps
are modelled as naturals and the argument list is the ascending list of
marker timestamps. -/
def removeOldBackups (num : Nat) : List Nat → List Nat
  | [] => []
  | t :: rest =>
      if num < (t :: rest).length then removeOldBackups num rest else t :: rest

/-- Effect of one fully successful backupvm.py run, at timestamp t, on the
set of marker-carrying run directories (ascending list st): Backup.run
calls _remove_old_backups (line 152) before writing the OK file of the
current run (line 166), so the rotation sees only the prior markers and
the marker of the current run is appended afterwards. -/
def okMarkersAfterRun (num : Nat) (st : List Nat) (t : Nat) : List Nat :=
  removeOldBackups num st ++ [t]

/-- Marker-carrying run directories after a sequence of consecutive fully
successful runs at the given ascending timestamps, starting from an empty
backup directory. -/
def okMarkersAfterRuns (num : Nat) (ts : List Nat) : List Nat :=
  ts.foldl (okMarkersAfterRun num) []

/-- Disk index of an event (0 for events that do not concern a disk). -/
def evIdx : Ev → Nat
  | Ev.attachCreate i => i
  | Ev.attachRemove i => i
  | Ev.copy i => i
  | Ev.copyFailLog i => i
  | _ => 0

/-- Predicate selecting the events that are not part of the migration
step. -/
def nonMigrateEv : Ev → Bool
  | Ev.migrateTry => false
  | Ev.migrateFailLog => false
  | _ => true

/-- Number of occurrences of an event in a trace. -/
def countEv (e : Ev) : List Ev → Nat
  | [] => 0
  | x :: xs => (if x = e then 1 else 0) + countEv e xs

/-- Concrete run exercising guard_create_remove_balanced: one disk whose
copy fails (the guarded body raises), with a failing migration. -/
def envC1w : Env :=
  ⟨fun _ => some SnapStatus.ok, 2, fun _ => true, fun _ _ => some "vdb",
    fun i => if i = 0 then 1 else 0, true, false⟩

/-- Concrete run whose snapshot status never leaves locked: the wait loop
raises after its 51 fetch attempts. -/
def envC10w : Env :=
  ⟨fun _ => some SnapStatus.locked, 1, fun _ => true, fun _ _ => some "vdb",
    fun _ => 0, false, true⟩

/-- Fetch behaviour that immediately reports ok. -/
def fetchOkC5 : Nat → Option SnapStatus := fun _ => some SnapStatus.ok

/-- Concrete run whose snapshot status never leaves locked, for the
timeout half of the C5 theorem. -/
def envC5w : Env :=
  ⟨fun _ => some SnapStatus.locked, 1, fun _ => true, fun _ _ => some "vdb",
    fun _ => 0, false, true⟩

/-- Environment whose first fetch observes ok, for the entry half of the
C5 theorem. -/
def envC5e : Env :=
  ⟨fetchOkC5, 0, fun _ => true, fun _ _ => none, fun _ => 0, false, true⟩

/-- Total fetch behaviour for the backupvm2.py loop in the C5 witness. -/
def vfetchC5 : Nat → SnapStatus := fun _ => SnapStatus.ok

/-- The spec scenario status sequence [locked, locked, locked, ok] for
the backupvm.py guard (fetches with index below 3 observe locked, later
ones ok). -/
def fetchC6 : Nat → Option SnapStatus :=
  fun i => if i < 3 then some SnapStatus.locked else some SnapStatus.ok

/-- The same status sequence for the backupvm2.py guard. -/
def fetchC6v2 : Nat → SnapStatus :=
  fun i => if i < 3 then SnapStatus.locked else SnapStatus.ok

/-- Concrete backupvm.py run with three disks whose second dd exits
non-zero. -/
def envC7w : Env :=
  ⟨fun _ => some SnapStatus.ok, 3, fun _ => true, fun _ _ => some "vdb",
    fun i => if i = 1 then 2 else 0, false, true⟩

/-- Concrete backupvm2.py run with two disks whose first dd exits
non-zero. -/
def envC7x : Env2 :=
  ⟨fun _ => SnapStatus.ok, 2, fun _ => true, fun i => if i = 0 then 1 else 0, true⟩

/-- Concrete backupvm2.py run whose migration raises. -/
def envC9x : Env2 :=
  ⟨fun _ => SnapStatus.ok, 1, fun _ => true, fun _ => 0, false⟩

/-- Concrete backupvm.py run with requested, failing migration. -/
def envC9w : Env :=
  ⟨fun _ => some SnapStatus.ok, 1, fun _ => true, fun _ _ => some "vdb",
    fun _ => 0, true, false⟩

/-- Concrete backupvm.py run whose snapshot status never leaves locked,
used for the C2 counterexample. -/
def envC2x : Env :=
  ⟨fun _ => some SnapStatus.locked, 1, fun _ => true, fun _ _ => some "vdb",
    fun _ => 0, false, true⟩

/-- Concrete backupvm.py run aborted by a copy failure, used as the C2
witness input. -/
def envC2w : Env :=
  ⟨fun _ => some SnapStatus.ok, 1, fun _ => true, fun _ _ => some "vdb",
    fun _ => 7, false, true⟩

/-- Concrete backupvm.py run aborted by a copy failure, the C4 failing
input. -/
def envC4x : Env :=
  ⟨fun _ => some SnapStatus.ok, 1, fun _ => true, fun _ _ => some "vdb",
    fun _ => 1, false, true⟩

/-- Concrete fully successful backupvm.py run. -/
def envC4ok : Env :=
  ⟨fun _ => some SnapStatus.ok, 1, fun _ => true, fun _ _ => some "vdb",
    fun _ => 0, false, true⟩

/-- Concrete backupvm.py run aborted by a snapshot wait timeout. -/
def envC4to : Env :=
  ⟨fun _ => some SnapStatus.locked, 1, fun _ => true, fun _ _ => some "vdb",
    fun _ => 0, false, true⟩

lemma countEv_append (e : Ev) (l1 l2 : List Ev) :
    countEv e (l1 ++ l2) = countEv e l1 + countEv e l2 := by
  induction l1 with
  | nil => simp [countEv]
  | cons x xs ih => simp [countEv, ih]; omega

lemma countEv_eq_zero (e : Ev) (l : List Ev) (h : e ∉ l) : countEv e l = 0 := by
  induction l with
  | nil => rfl
  | cons x xs ih =>
      simp only [List.mem_cons, not_or] at h
      simp [countEv, ih h.2, Ne.symm h.1]

lemma snapLoop1_entered (fetch : Nat → Option SnapStatus) :
    ∀ rem status tries t, snapLoop1 fetch rem status tries = SnapRes.entered t →
      (status = SnapStatus.ok ∧ t = tries) ∨
      (tries < t ∧ fetch (t - 1) = some SnapStatus.ok) := by
  intro rem
  induction rem with
  | zero =>
      intro status tries t h
      by_cases hs : status = SnapStatus.ok
      · simp [snapLoop1, hs] at h
        exact Or.inl ⟨hs, h.symm⟩
      · simp [snapLoop1, hs] at h
  | succ rem ih =>
      intro status tries t h
      by_cases hs : status = SnapStatus.ok
      · simp [snapLoop1, hs] at h
        exact Or.inl ⟨hs, h.symm⟩
      · simp only [snapLoop1, hs, if_false] at h
        rcases ih _ _ _ h with ⟨hok, ht⟩ | ⟨hlt, hok⟩
        · -- the status after the fetch of iteration tries is ok
          cases hf : fetch tries with
          | none => rw [hf] at hok; simp [Option.getD] at hok; exact absurd hok hs
          | some s =>
              rw [hf] at hok; simp [Option.getD] at hok
              subst hok
              refine Or.inr ⟨by omega, ?_⟩
              have : t - 1 = tries := by omega
              rw [this, hf]
        · exact Or.inr ⟨by omega, hok⟩

lemma snapLoop1_timeout (fetch : Nat → Option SnapStatus) :
    ∀ rem status tries, status ≠ SnapStatus.ok →
      (∀ i, tries ≤ i → i < tries + rem → fetch i ≠ some SnapStatus.ok) →
      snapLoop1 fetch rem status tries = SnapRes.timeout (tries + rem) := by
  intro rem
  induction rem with
  | zero => intro status tries hs _; simp [snapLoop1, hs]
  | succ rem ih =>
      intro status tries hs hf
      simp only [snapLoop1, hs, if_false]
      have hnext : (fetch tries).getD status ≠ SnapStatus.ok := by
        cases hft : fetch tries with
        | none => simpa [Option.getD] using hs
        | some s =>
            simp only [Option.getD]
            intro hcon
            exact hf tries (le_refl _) (by omega) (by rw [hft, hcon])
      have := ih ((fetch tries).getD status) (tries + 1) hnext
        (fun i h1 h2 => hf i (by omega) (by omega))
      rw [this]
      congr 1
      omega

lemma snapLoop2_some (fetch : Nat → SnapStatus) :
    ∀ fuel i t, snapLoop2 fetch fuel i = some t → fetch t = SnapStatus.ok := by
  intro fuel
  induction fuel with
  | zero => intro i t h; simp [snapLoop2] at h
  | succ fuel ih =>
      intro i t h
      by_cases hs : fetch i = SnapStatus.ok
      · simp [snapLoop2, hs] at h; subst h; exact hs
      · simp only [snapLoop2, hs, if_false] at h
        exact ih _ _ h

lemma findLoop_stub_ok (k : Nat) (d : String) :
    ∀ rem t, t ≤ k → k < t + rem →
      findLoop (stubScan k d) rem t = Except.ok ("/dev/" ++ d) := by
  intro rem
  induction rem with
  | zero => intro t h1 h2; omega
  | succ rem ih =>
      intro t h1 h2
      by_cases ht : t < k
      · have : stubScan k d t = none := by simp [stubScan, ht]
        simp only [findLoop, this]
        exact ih (t + 1) (by omega) (by omega)
      · have hteq : t = k := by omega
        have : stubScan k d t = some d := by simp [stubScan, ht]
        simp [findLoop, this]

lemma diskStep1_cases (env : Env) (i : Nat) :
    diskStep1 env i = ([], some (Outcome.attachFailed i)) ∨
    diskStep1 env i =
      ([Ev.attachCreate i, Ev.attachRemove i], some (Outcome.deviceNotFound i)) ∨
    (diskStep1 env i =
      ([Ev.attachCreate i, Ev.copy i, Ev.attachRemove i], none) ∧ env.copyExit i = 0) ∨
    (diskStep1 env i =
      ([Ev.attachCreate i, Ev.copy i, Ev.attachRemove i], some (Outcome.copyFailed i)) ∧
      env.copyExit i ≠ 0) := by
  unfold diskStep1
  by_cases ha : env.attachOk i = true
  · cases hf : findDataDisk (env.device i) with
    | error e => simp [ha, hf]
    | ok dev =>
        by_cases hc : env.copyExit i = 0
        · simp [ha, hf, hc]
        · simp [ha, hf, hc]
  · simp [ha]

lemma diskStep1_mem (env : Env) (i : Nat) (e : Ev) (h : e ∈ (diskStep1 env i).1) :
    e = Ev.attachCreate i ∨ e = Ev.attachRemove i ∨ e = Ev.copy i := by
  rcases diskStep1_cases env i with h1 | h1 | ⟨h1, _⟩ | ⟨h1, _⟩ <;>
    rw [h1] at h <;> simp at h <;> tauto

lemma diskLoop1_mem (env : Env) :
    ∀ n i e, e ∈ (diskLoop1 env i n).1 →
      ∃ j, i ≤ j ∧ (e = Ev.attachCreate j ∨ e = Ev.attachRemove j ∨ e = Ev.copy j) := by
  intro n
  induction n with
  | zero => intro i e h; simp [diskLoop1] at h
  | succ n ih =>
      intro i e h
      rcases diskStep1_cases env i with h1 | h1 | ⟨h1, _⟩ | ⟨h1, _⟩ <;>
        simp only [diskLoop1, h1, List.mem_append] at h
      · simp at h
      · exact ⟨i, le_refl _, by simpa using diskStep1_mem env i e (by rw [h1]; exact h)⟩
      · rcases h with h | h
        · exact ⟨i, le_refl _, by simpa using diskStep1_mem env i e (by rw [h1]; simpa using h)⟩
        · rcases ih (i + 1) e h with ⟨j, hj, hsh⟩
          exact ⟨j, by omega, hsh⟩
      · exact ⟨i, le_refl _, by simpa using diskStep1_mem env i e (by rw [h1]; exact h)⟩

lemma diskLoop1_balance (env : Env) (j : Nat) :
    ∀ n i, countEv (Ev.attachCreate j) (diskLoop1 env i n).1 =
           countEv (Ev.attachRemove j) (diskLoop1 env i n).1 := by
  intro n
  induction n with
  | zero => intro i; rfl
  | succ n ih =>
      intro i
      rcases diskStep1_cases env i with h1 | h1 | ⟨h1, _⟩ | ⟨h1, _⟩ <;>
        simp only [diskLoop1, h1] <;>
        simp [countEv_append, countEv, ih (i + 1)]

lemma diskLoop1_some (env : Env) :
    ∀ n i o, (diskLoop1 env i n).2 = some o →
      ∃ j, i ≤ j ∧ (o = Outcome.attachFailed j ∨ o = Outcome.deviceNotFound j ∨
        o = Outcome.copyFailed j) := by
  intro n
  induction n with
  | zero => intro i o h; simp [diskLoop1] at h
  | succ n ih =>
      intro i o h
      rcases diskStep1_cases env i with h1 | h1 | ⟨h1, _⟩ | ⟨h1, _⟩ <;>
        simp only [diskLoop1, h1] at h
      · exact ⟨i, le_refl _, Or.inl (by simpa using h.symm)⟩
      · exact ⟨i, le_refl _, Or.inr (Or.inl (by simpa using h.symm))⟩
      · rcases ih (i + 1) o h with ⟨j, hj, hsh⟩
        exact ⟨j, by omega, hsh⟩
      · exact ⟨i, le_refl _, Or.inr (Or.inr (by simpa using h.symm))⟩

lemma diskLoop1_copy_fail (env : Env) :
    ∀ n i0 i, Ev.copy i ∈ (diskLoop1 env i0 n).1 → env.copyExit i ≠ 0 →
      (diskLoop1 env i0 n).2 = some (Outcome.copyFailed i) ∧
      ∀ e, e ∈ (diskLoop1 env i0 n).1 → evIdx e ≤ i := by
  intro n
  induction n with
  | zero => intro i0 i h _; simp [diskLoop1] at h
  | succ n ih =>
      intro i0 i h hc
      rcases diskStep1_cases env i0 with h1 | h1 | ⟨h1, hc0⟩ | ⟨h1, hc0⟩
      · simp only [diskLoop1, h1] at h
        simp at h
      · simp only [diskLoop1, h1] at h
        simp at h
      · -- the step at i0 succeeded, so its dd exit code was 0
        simp only [diskLoop1, h1, List.mem_append] at h ⊢
        rcases h with h | h
        · exfalso
          have : i = i0 := by simpa using h
          subst this
          exact hc hc0
        · have hlt : i0 < i := by
            rcases diskLoop1_mem env n (i0 + 1) (Ev.copy i) h with ⟨j, hj, hsh⟩
            have : i = j := by simpa using hsh
            omega
          rcases ih (i0 + 1) i h hc with ⟨hres, hbound⟩
          refine ⟨hres, ?_⟩
          intro e he
          rcases he with he | he
          · have : evIdx e = i0 := by
              rcases (by simpa using he :
                e = Ev.attachCreate i0 ∨ e = Ev.copy i0 ∨ e = Ev.attachRemove i0) with
                h2 | h2 | h2 <;> subst h2 <;> rfl
            omega
          · exact hbound e he
      · -- the step at i0 itself failed the copy
        simp only [diskLoop1, h1] at h ⊢
        have hii : i = i0 := by simpa using h
        subst hii
        refine ⟨rfl, ?_⟩
        intro e he
        rcases (by simpa using he :
          e = Ev.attachCreate i ∨ e = Ev.copy i ∨ e = Ev.attachRemove i) with
          h2 | h2 | h2 <;> subst h2 <;> simp [evIdx]

lemma findLoop_stub_err (k : Nat) (d : String) :
    ∀ rem t, t + rem ≤ k →
      findLoop (stubScan k d) rem t = Except.error Err.deviceNotFound := by
  intro rem
  induction rem with
  | zero => intro t _; rfl
  | succ rem ih =>
      intro t h
      have : stubScan k d t = none := by simp [stubScan]; omega
      simp only [findLoop, this]
      exact ih (t + 1) (by omega)

lemma removeOldBackups_drop (num : Nat) :
    ∀ l : List Nat, removeOldBackups num l = l.drop (l.length - num) := by
  intro l
  induction l with
  | nil => simp [removeOldBackups]
  | cons t rest ih =>
      by_cases h : num < (t :: rest).length
      · simp only [removeOldBackups, h, if_true]
        rw [ih]
        have h2 : (t :: rest).length - num = (rest.length - num) + 1 := by
          simp at h ⊢
          omega
        rw [h2]
        rfl
      · simp only [removeOldBackups, h, if_false]
        have h2 : (t :: rest).length - num = 0 := by
          simp at h ⊢
          omega
        rw [h2]
        rfl

lemma removeOldBackups_length (num : Nat) (l : List Nat) :
    (removeOldBackups num l).length = min l.length num := by
  rw [removeOldBackups_drop, List.length_drop]
  omega

lemma removeOldBackups_suffix (num : Nat) (l : List Nat) :
    removeOldBackups num l <:+ l := by
  rw [removeOldBackups_drop]
  exact List.drop_suffix _ _

lemma suffix_append_same {l1 l2 : List Nat} (c : List Nat) (h : l1 <:+ l2) :
    l1 ++ c <:+ l2 ++ c := by
  obtain ⟨w, rfl⟩ := h
  exact ⟨w, (List.append_assoc w l1 c).symm⟩

lemma suffix_eq_drop {l1 l2 : List Nat} (h : l1 <:+ l2) :
    l1 = l2.drop (l2.length - l1.length) := by
  obtain ⟨w, rfl⟩ := h
  have h1 : (w ++ l1).length - l1.length = w.length := by
    simp [List.length_append]
  rw [h1]
  exact (List.drop_left w l1).symm

lemma okMarkers_foldl_length (num : Nat) :
    ∀ (ts acc : List Nat), acc.length ≤ num + 1 →
      (List.foldl (okMarkersAfterRun num) acc ts).length =
        min (acc.length + ts.length) (num + 1) := by
  intro ts
  induction ts with
  | nil =>
      intro acc h
      simp
      omega
  | cons t ts ih =>
      intro acc h
      rw [List.foldl_cons]
      have hstep : (okMarkersAfterRun num acc t).length = min acc.length num + 1 := by
        simp [okMarkersAfterRun, removeOldBackups_length]
      have hle : (okMarkersAfterRun num acc t).length ≤ num + 1 := by omega
      rw [ih _ hle, hstep]
      simp only [List.length_cons]
      omega

lemma okMarkers_foldl_suffix (num : Nat) :
    ∀ (ts acc l : List Nat), acc <:+ l →
      List.foldl (okMarkersAfterRun num) acc ts <:+ l ++ ts := by
  intro ts
  induction ts with
  | nil =>
      intro acc l h
      simpa using h
  | cons t ts ih =>
      intro acc l h
      rw [List.foldl_cons]
      have hstep : okMarkersAfterRun num acc t <:+ l ++ [t] :=
        suffix_append_same [t] ((removeOldBackups_suffix num acc).trans h)
      simpa [List.append_assoc] using ih _ _ hstep

lemma diskStep1_setMigrateOk (env : Env) (b : Bool) (i : Nat) :
    diskStep1 (setMigrateOk env b) i = diskStep1 env i := rfl

lemma diskLoop1_setMigrateOk (env : Env) (b : Bool) :
    ∀ n i, diskLoop1 (setMigrateOk env b) i n = diskLoop1 env i n := by
  intro n
  induction n with
  | zero => intro i; rfl
  | succ n ih => intro i; simp only [diskLoop1, diskStep1_setMigrateOk, ih]

lemma run1_timeout_eq (env : Env) (t : Nat)
    (h : snapEnter env.fetch 50 = SnapRes.timeout t) :
    run1 env = ([Ev.mkRunDir, Ev.snapCreate], Outcome.snapTimeout) := by
  simp [run1, h]

lemma run1_entered_trace (env : Env) (t : Nat)
    (h : snapEnter env.fetch 50 = SnapRes.entered t) :
    ∃ tail, (run1 env).1 =
        [Ev.mkRunDir, Ev.snapCreate] ++ migrateEvents env.migrateFlag env.migrateOk
          ++ (diskLoop1 env 0 env.numDisks).1 ++ [Ev.snapRemove, tail] ∧
      (tail = Ev.rmRunDir ∨ tail = Ev.writeOK) := by
  rcases hd : diskLoop1 env 0 env.numDisks with ⟨devs, r⟩
  cases r with
  | none => exact ⟨Ev.writeOK, by simp [run1, h, hd], Or.inr rfl⟩
  | some o => exact ⟨Ev.rmRunDir, by simp [run1, h, hd], Or.inl rfl⟩

lemma mem_migrateEvents_elim {f o : Bool} {e : Ev} (h : e ∈ migrateEvents f o) :
    e = Ev.migrateTry ∨ e = Ev.migrateFailLog := by
  cases f <;> cases o <;> simp [migrateEvents] at h <;> tauto

lemma countEv_migrateEvents (e : Ev) (f o : Bool)
    (h1 : e ≠ Ev.migrateTry) (h2 : e ≠ Ev.migrateFailLog) :
    countEv e (migrateEvents f o) = 0 := by
  apply countEv_eq_zero
  intro hmem
  rcases mem_migrateEvents_elim hmem with h | h
  · exact h1 h
  · exact h2 h

lemma filter_migrateEvents (f o : Bool) :
    List.filter nonMigrateEv (migrateEvents f o) = [] := by
  cases f <;> cases o <;> rfl

lemma countEv_snapCreate_diskLoop1 (env : Env) (n i : Nat) :
    countEv Ev.snapCreate (diskLoop1 env i n).1 = 0 := by
  apply countEv_eq_zero
  intro hmem
  rcases diskLoop1_mem env n i _ hmem with ⟨j, _, hj | hj | hj⟩ <;> simp at hj

lemma countEv_snapRemove_diskLoop1 (env : Env) (n i : Nat) :
    countEv Ev.snapRemove (diskLoop1 env i n).1 = 0 := by
  apply countEv_eq_zero
  intro hmem
  rcases diskLoop1_mem env n i _ hmem with ⟨j, _, hj | hj | hj⟩ <;> simp at hj

/-- C1: for every backup run in which a guard (snapshot or attachment) was
successfully entered, guard exit issues exactly one remote remove call for
the corresponding create call, regardless of whether the guarded body
completed normally or raised; across any such run, create and remove
calls for snapshots and disk attachments are balanced 1:1.  The snapshot
guard of backupvm.py is entered exactly when the wait loop does not time
out, which in the model is the only way (run1 env).2 can be snapTimeout;
the attachment guard of backupvm.py cannot fail on entry, so every
attachment created sees its guard entered. -/
theorem guard_create_remove_balanced (env : Env)
    (h : (run1 env).2 ≠ Outcome.snapTimeout) :
    countEv Ev.snapCreate (run1 env).1 = 1 ∧
    countEv Ev.snapRemove (run1 env).1 = 1 ∧
    ∀ j, countEv (Ev.attachCreate j) (run1 env).1 =
         countEv (Ev.attachRemove j) (run1 env).1 := by
  rcases hs : snapEnter env.fetch 50 with t | t
  · obtain ⟨tail, htr, htail⟩ := run1_entered_trace env t hs
    rw [htr]
    have hbal := diskLoop1_balance env
    have hac : ∀ j, countEv (Ev.attachCreate j) (diskLoop1 env 0 env.numDisks).1 =
        countEv (Ev.attachRemove j) (diskLoop1 env 0 env.numDisks).1 :=
      fun j => diskLoop1_balance env j env.numDisks 0
    rcases htail with rfl | rfl <;>
      refine ⟨?_, ?_, fun j => ?_⟩ <;>
        simp [countEv_append, countEv, countEv_snapCreate_diskLoop1,
          countEv_snapRemove_diskLoop1, countEv_migrateEvents, hac]
  · exfalso
    apply h
    rw [run1_timeout_eq env t hs]

theorem guard_create_remove_balanced_witness :
    countEv Ev.snapCreate (run1 envC1w).1 = 1 ∧
    countEv Ev.snapRemove (run1 envC1w).1 = 1 ∧
    countEv (Ev.attachCreate 0) (run1 envC1w).1 =
      countEv (Ev.attachRemove 0) (run1 envC1w).1 :=
  ⟨(guard_create_remove_balanced envC1w (by decide)).1,
   (guard_create_remove_balanced envC1w (by decide)).2.1,
   (guard_create_remove_balanced envC1w (by decide)).2.2 0⟩

/-- C10: if snapshot guard acquisition itself fails (the entry-time
polling raises on timeout), the exit handler of the guard never runs, so
no snapshot removal call is ever issued for the snapshot created for that
run, the created remote snapshot is left behind, and no disk attachment
guard ever runs either. -/
theorem snapshot_timeout_leaks_snapshot (env : Env) (t : Nat)
    (h : snapEnter env.fetch 50 = SnapRes.timeout t) :
    (run1 env).2 = Outcome.snapTimeout ∧
    countEv Ev.snapCreate (run1 env).1 = 1 ∧
    countEv Ev.snapRemove (run1 env).1 = 0 ∧
    ∀ j, Ev.attachCreate j ∉ (run1 env).1 := by
  rw [run1_timeout_eq env t h]
  exact ⟨rfl, by decide, by decide, fun j => by simp⟩

theorem snapshot_timeout_leaks_snapshot_witness :
    (run1 envC10w).2 = Outcome.snapTimeout ∧
    countEv Ev.snapCreate (run1 envC10w).1 = 1 ∧
    countEv Ev.snapRemove (run1 envC10w).1 = 0 ∧
    Ev.attachCreate 0 ∉ (run1 envC10w).1 :=
  ⟨(snapshot_timeout_leaks_snapshot envC10w 51 (by decide)).1,
   (snapshot_timeout_leaks_snapshot envC10w 51 (by decide)).2.1,
   (snapshot_timeout_leaks_snapshot envC10w 51 (by decide)).2.2.1,
   (snapshot_timeout_leaks_snapshot envC10w 51 (by decide)).2.2.2 0⟩

/-- C5: the snapshot guard returns control to the guarded body only after
a status fetch observed ok (in backupvm.py the last fetch before entry
returned ok; in backupvm2.py the fetch with the returned index did); and
if no fetch among the 51 attempts of the backupvm.py bound observes ok,
guard acquisition fails with SnapshotTimeout and no disk attachment is
ever created for that run. -/
theorem snapshot_guard_entry_requires_ok (env : Env) (vfetch : Nat → SnapStatus) :
    (∀ t, snapEnter env.fetch 50 = SnapRes.entered t →
      0 < t ∧ env.fetch (t - 1) = some SnapStatus.ok) ∧
    ((∀ i, i < 51 → env.fetch i ≠ some SnapStatus.ok) →
      (run1 env).2 = Outcome.snapTimeout ∧ ∀ j, Ev.attachCreate j ∉ (run1 env).1) ∧
    (∀ fuel i t, snapLoop2 vfetch fuel i = some t → vfetch t = SnapStatus.ok) := by
  refine ⟨?_, ?_, fun fuel i t h => snapLoop2_some vfetch fuel i t h⟩
  · intro t h
    have h2 : snapLoop1 env.fetch 51 SnapStatus.locked 0 = SnapRes.entered t := h
    rcases snapLoop1_entered env.fetch 51 SnapStatus.locked 0 t h2 with ⟨hok, _⟩ | ⟨hlt, hok⟩
    · exact absurd hok (by simp)
    · exact ⟨hlt, hok⟩
  · intro hf
    have ht : snapEnter env.fetch 50 = SnapRes.timeout 51 := by
      have := snapLoop1_timeout env.fetch 51 SnapStatus.locked 0 (by simp)
        (fun i h1 h2 => hf i (by omega))
      simpa [snapEnter] using this
    rw [run1_timeout_eq env 51 ht]
    exact ⟨rfl, fun j => by simp⟩

theorem snapshot_guard_entry_requires_ok_witness :
    (0 < 1 ∧ envC5e.fetch 0 = some SnapStatus.ok) ∧
    ((run1 envC5w).2 = Outcome.snapTimeout ∧ Ev.attachCreate 0 ∉ (run1 envC5w).1) ∧
    vfetchC5 0 = SnapStatus.ok :=
  ⟨(snapshot_guard_entry_requires_ok envC5e vfetchC5).1 1 (by decide),
   ⟨((snapshot_guard_entry_requires_ok envC5w vfetchC5).2.1 (by decide)).1,
    ((snapshot_guard_entry_requires_ok envC5w vfetchC5).2.1 (by decide)).2 0⟩,
   (snapshot_guard_entry_requires_ok envC5e vfetchC5).2.2 1 0 0 (by decide)⟩

/-- C6 counterexample: on the status sequence [locked, locked, locked,
ok] with poll bound 50, the backupvm.py guard enters the body after 4
poll delays, not 3: its loop sleeps once per iteration, after every fetch
attempt, including the fourth fetch, the one that observes ok. -/
theorem snapshot_poll_three_delays_cex :
    snapEnter fetchC6 50 ≠ SnapRes.entered 3 ∧
    snapEnter fetchC6 50 = SnapRes.entered 4 := by decide

/-- C6 amended: on the status sequence [locked, locked, locked, ok], the
backupvm.py guard (poll bound 50) succeeds, never raising, and enters the
body after exactly 4 poll delays, because it sleeps after every fetch
attempt including the one that observes ok; the unbounded backupvm2.py
guard enters the body after exactly 3 poll delays. -/
theorem snapshot_poll_delay_counts :
    snapEnter fetchC6 50 = SnapRes.entered 4 ∧
    snapLoop2 fetchC6v2 50 0 = some 3 := by decide

/-- C7 (amended, backupvm.py side): if the dd copy of disk i ran and its
exit code is non-zero, the run aborts with CopyFailed for that disk, and
no disk after it is attached or copied. -/
theorem copy_failure_aborts_run (env : Env) (i : Nat)
    (hmem : Ev.copy i ∈ (run1 env).1) (hc : env.copyExit i ≠ 0) :
    (run1 env).2 = Outcome.copyFailed i ∧
    ∀ j, i < j → Ev.attachCreate j ∉ (run1 env).1 ∧ Ev.copy j ∉ (run1 env).1 := by
  rcases hs : snapEnter env.fetch 50 with t | t
  · obtain ⟨tail, htr, htail⟩ := run1_entered_trace env t hs
    have hdev : Ev.copy i ∈ (diskLoop1 env 0 env.numDisks).1 := by
      rw [htr] at hmem
      simp only [List.mem_append, List.mem_cons, List.not_mem_nil, or_false] at hmem
      rcases hmem with ((hmem | hmem) | hmem) | hmem
      · rcases hmem with hmem | hmem <;> simp at hmem
      · rcases mem_migrateEvents_elim hmem with h2 | h2 <;> simp at h2
      · exact hmem
      · rcases hmem with hmem | hmem
        · simp at hmem
        · rcases htail with rfl | rfl <;> simp at hmem
    obtain ⟨hres, hbound⟩ := diskLoop1_copy_fail env env.numDisks 0 i hdev hc
    constructor
    · rcases hd : diskLoop1 env 0 env.numDisks with ⟨devs, r⟩
      rw [hd] at hres
      simp only at hres
      rw [hres] at hd
      simp [run1, hs, hd]
    · intro j hj
      constructor <;> intro hmem2 <;> rw [htr] at hmem2 <;>
        simp only [List.mem_append, List.mem_cons, List.not_mem_nil, or_false] at hmem2 <;>
        rcases hmem2 with ((h2 | h2) | h2) | h2
      · rcases h2 with h2 | h2 <;> simp at h2
      · rcases mem_migrateEvents_elim h2 with h3 | h3 <;> simp at h3
      · have := hbound _ h2
        simp [evIdx] at this
        omega
      · rcases h2 with h2 | h2
        · simp at h2
        · rcases htail with rfl | rfl <;> simp at h2
      · rcases h2 with h2 | h2 <;> simp at h2
      · rcases mem_migrateEvents_elim h2 with h3 | h3 <;> simp at h3
      · have := hbound _ h2
        simp [evIdx] at this
        omega
      · rcases h2 with h2 | h2
        · simp at h2
        · rcases htail with rfl | rfl <;> simp at h2
  · rw [run1_timeout_eq env t hs] at hmem
    simp at hmem

theorem copy_failure_aborts_run_witness :
    (run1 envC7w).2 = Outcome.copyFailed 1 ∧
    Ev.attachCreate 2 ∉ (run1 envC7w).1 ∧ Ev.copy 2 ∉ (run1 envC7w).1 :=
  ⟨(copy_failure_aborts_run envC7w 1 (by decide) (by decide)).1,
   ((copy_failure_aborts_run envC7w 1 (by decide) (by decide)).2 2 (by decide)).1,
   ((copy_failure_aborts_run envC7w 1 (by decide) (by decide)).2 2 (by decide)).2⟩

/-- C7 counterexample (backupvm2.py): the dd copy of disk 0 exits
non-zero, and the failure is only logged (backupvm2.py line 217): the run
does not raise CopyFailed, completes with success, and the remaining disk
is still attached and copied. -/
theorem copy_failure_continues_in_v2 :
    envC7x.copyExit 0 ≠ 0 ∧
    Ev.copy 0 ∈ (run2 3 envC7x).1 ∧
    Ev.copyFailLog 0 ∈ (run2 3 envC7x).1 ∧
    (run2 3 envC7x).2 = Outcome.ok ∧
    Ev.attachCreate 1 ∈ (run2 3 envC7x).1 ∧
    Ev.copy 1 ∈ (run2 3 envC7x).1 := by decide

/-- C9 (amended, backupvm.py side): a run never aborts with a migration
failure; the outcome and the non-migration events of the run do not
depend on whether the migration succeeded; and when migration was
requested and failed in an entered run, the failure is logged. -/
theorem migrate_failure_swallowed (env : Env) (b : Bool) :
    (run1 env).2 ≠ Outcome.migrateFailed ∧
    (run1 (setMigrateOk env b)).2 = (run1 env).2 ∧
    List.filter nonMigrateEv (run1 (setMigrateOk env b)).1 =
      List.filter nonMigrateEv (run1 env).1 ∧
    (∀ t, snapEnter env.fetch 50 = SnapRes.entered t → env.migrateFlag = true →
      env.migrateOk = false → Ev.migrateFailLog ∈ (run1 env).1) := by
  have hfetch : (setMigrateOk env b).fetch = env.fetch := rfl
  have hnum : (setMigrateOk env b).numDisks = env.numDisks := rfl
  have hflag : (setMigrateOk env b).migrateFlag = env.migrateFlag := rfl
  have hmigok : (setMigrateOk env b).migrateOk = b := rfl
  rcases hs : snapEnter env.fetch 50 with t | t
  · rcases hd : diskLoop1 env 0 env.numDisks with ⟨devs, r⟩
    have hd2 : diskLoop1 (setMigrateOk env b) 0 (setMigrateOk env b).numDisks =
        (devs, r) := by
      rw [hnum, diskLoop1_setMigrateOk]
      exact hd
    have hs2 : snapEnter (setMigrateOk env b).fetch 50 = SnapRes.entered t := by
      rw [hfetch]; exact hs
    refine ⟨?_, ?_, ?_, ?_⟩
    · cases r with
      | none => simp [run1, hs, hd]
      | some o =>
          simp only [run1, hs, hd]
          intro hcon
          rcases diskLoop1_some env env.numDisks 0 o (by rw [hd]) with ⟨j, _, hj | hj | hj⟩ <;>
            rw [hcon] at hj <;> simp at hj
    · cases r with
      | none => simp [run1, hs, hd, hs2, hd2, hflag, hmigok]
      | some o => simp [run1, hs, hd, hs2, hd2, hflag, hmigok]
    · cases r with
      | none =>
          simp [run1, hs, hd, hs2, hd2, hflag, hmigok, List.filter_append,
            List.filter_cons, filter_migrateEvents, nonMigrateEv]
      | some o =>
          simp [run1, hs, hd, hs2, hd2, hflag, hmigok, List.filter_append,
            List.filter_cons, filter_migrateEvents, nonMigrateEv]
    · intro t2 _ hfl hok
      obtain ⟨tail, htr, _⟩ := run1_entered_trace env t hs
      rw [htr]
      simp [hfl, hok, migrateEvents]
  · have ht2 : snapEnter (setMigrateOk env b).fetch 50 = SnapRes.timeout t := by
      rw [hfetch]; exact hs
    rw [run1_timeout_eq env t hs, run1_timeout_eq (setMigrateOk env b) t ht2]
    refine ⟨by simp, rfl, rfl, ?_⟩
    intro t2 hcon
    exact absurd hcon (by simp)

/-- C9 counterexample (backupvm2.py): the migration call of backupvm2.py
line 113 has no surrounding try/except, so a migration error aborts the
run before any disk is attached or copied; the error is not swallowed. -/
theorem migrate_failure_aborts_v2 :
    (run2 3 envC9x).2 = Outcome.migrateFailed ∧
    Ev.attachCreate 0 ∉ (run2 3 envC9x).1 ∧
    Ev.copy 0 ∉ (run2 3 envC9x).1 := by decide

theorem migrate_failure_swallowed_witness :
    (run1 envC9w).2 ≠ Outcome.migrateFailed ∧
    (run1 (setMigrateOk envC9w true)).2 = (run1 envC9w).2 ∧
    Ev.migrateFailLog ∈ (run1 envC9w).1 :=
  ⟨(migrate_failure_swallowed envC9w true).1,
   (migrate_failure_swallowed envC9w true).2.1,
   (migrate_failure_swallowed envC9w true).2.2.2 1 (by decide) rfl rfl⟩

/-- C2 counterexample: a run that fails after the run directory was
created (the snapshot wait loop times out) whose directory is not
deleted: the raised SnapshotError is not a BackupError, so the
`except (sdk.Error, BackupError)` handler of Backup.run (backupvm.py line
172) does not catch it and the cleanup at line 175 never executes. -/
theorem failed_run_dir_not_removed_cex :
    (run1 envC2x).2 = Outcome.snapTimeout ∧
    (run1 envC2x).2 ≠ Outcome.ok ∧
    Ev.mkRunDir ∈ (run1 envC2x).1 ∧
    Ev.rmRunDir ∉ (run1 envC2x).1 := by decide

/-- C2 amended: no failing run writes the completion marker, and the run
directory is deleted before the error propagates exactly when the failure
is an sdk.Error or BackupError (attachment failure, DeviceNotFound,
CopyFailed); a snapshot-timeout failure escapes the cleanup handler and
leaves the directory behind. -/
theorem failed_run_cleanup (env : Env) (h : (run1 env).2 ≠ Outcome.ok) :
    Ev.mkRunDir ∈ (run1 env).1 ∧
    Ev.writeOK ∉ (run1 env).1 ∧
    ((run1 env).2 = Outcome.snapTimeout ↔ Ev.rmRunDir ∉ (run1 env).1) := by
  rcases hs : snapEnter env.fetch 50 with t | t
  · rcases hd : diskLoop1 env 0 env.numDisks with ⟨devs, r⟩
    cases r with
    | none =>
        exfalso
        apply h
        simp [run1, hs, hd]
    | some o =>
        have htr : run1 env =
            ([Ev.mkRunDir, Ev.snapCreate] ++ migrateEvents env.migrateFlag env.migrateOk
              ++ devs ++ [Ev.snapRemove, Ev.rmRunDir], o) := by
          simp [run1, hs, hd]
        rw [htr]
        refine ⟨by simp, ?_, ?_⟩
        · intro hmem
          simp only [List.mem_append, List.mem_cons, List.not_mem_nil, or_false] at hmem
          rcases hmem with ((h2 | h2) | h2) | h2
          · rcases h2 with h2 | h2 <;> simp at h2
          · rcases mem_migrateEvents_elim h2 with h3 | h3 <;> simp at h3
          · rcases diskLoop1_mem env env.numDisks 0 _ (by rw [hd]; exact h2) with
              ⟨j, _, hj | hj | hj⟩ <;> simp at hj
          · rcases h2 with h2 | h2 <;> simp at h2
        · constructor
          · intro ho
            exfalso
            have ho2 : o = Outcome.snapTimeout := ho
            rcases diskLoop1_some env env.numDisks 0 o (by rw [hd]) with
              ⟨j, _, hj | hj | hj⟩ <;> rw [ho2] at hj <;> simp at hj
          · intro hnot
            exfalso
            apply hnot
            simp
  · rw [run1_timeout_eq env t hs]
    refine ⟨by simp, by simp, by simp⟩

theorem failed_run_cleanup_witness :
    Ev.mkRunDir ∈ (run1 envC2w).1 ∧
    Ev.writeOK ∉ (run1 envC2w).1 ∧
    ((run1 envC2w).2 = Outcome.snapTimeout ↔ Ev.rmRunDir ∉ (run1 envC2w).1) :=
  ⟨(failed_run_cleanup envC2w (by decide)).1,
   (failed_run_cleanup envC2w (by decide)).2.1,
   (failed_run_cleanup envC2w (by decide)).2.2⟩

/-- C3 counterexample: with retention count R = 1 and N = 2 consecutive
successful runs, 2 marker-carrying run directories remain, not exactly
R = 1 and not at most R: Backup.run rotates the old backups (backupvm.py
line 152) before writing the OK marker of the current run (line 166), so
the rotation never counts the current run. -/
theorem retention_exact_R_cex :
    (okMarkersAfterRuns 1 [0, 1]).length = 2 ∧
    ¬ (okMarkersAfterRuns 1 [0, 1]).length ≤ 1 := by decide

/-- C3 amended: after N consecutive successful runs for one VM with
retention count R < N, exactly R + 1 run directories with a completion
marker remain, and they are the R + 1 most recent by timestamp (a suffix
of the ascending timestamp list); the rotation deletes the oldest first,
dropping markers from the front of the ascending list. -/
theorem retention_keeps_R_plus_one (num : Nat) (ts : List Nat)
    (h : num < ts.length) :
    (okMarkersAfterRuns num ts).length = num + 1 ∧
    okMarkersAfterRuns num ts <:+ ts ∧
    okMarkersAfterRuns num ts = ts.drop (ts.length - (num + 1)) ∧
    ∀ l : List Nat, removeOldBackups num l = l.drop (l.length - num) := by
  have hlen : (okMarkersAfterRuns num ts).length = num + 1 := by
    have := okMarkers_foldl_length num ts [] (by simp)
    rw [okMarkersAfterRuns, this]
    simp
    omega
  have hsuf : okMarkersAfterRuns num ts <:+ ts := by
    have := okMarkers_foldl_suffix num ts [] [] (List.suffix_rfl)
    simpa using this
  refine ⟨hlen, hsuf, ?_, removeOldBackups_drop num⟩
  have := suffix_eq_drop hsuf
  rw [hlen] at this
  exact this

theorem retention_keeps_R_plus_one_witness :
    (okMarkersAfterRuns 1 [3, 4, 5]).length = 2 ∧
    okMarkersAfterRuns 1 [3, 4, 5] <:+ [3, 4, 5] ∧
    okMarkersAfterRuns 1 [3, 4, 5] =
      List.drop (([3, 4, 5] : List Nat).length - (1 + 1)) [3, 4, 5] ∧
    removeOldBackups 1 [7, 8, 9] =
      List.drop (([7, 8, 9] : List Nat).length - 1) [7, 8, 9] :=
  ⟨(retention_keeps_R_plus_one 1 [3, 4, 5] (by decide)).1,
   (retention_keeps_R_plus_one 1 [3, 4, 5] (by decide)).2.1,
   (retention_keeps_R_plus_one 1 [3, 4, 5] (by decide)).2.2.1,
   (retention_keeps_R_plus_one 1 [3, 4, 5] (by decide)).2.2.2 [7, 8, 9]⟩

/-- C4: evaluation of main (backupvm.py lines 424-431) at the failing
inputs.  A run aborted by a copy failure is caught by the
`except (sdk.Error, BackupError)` in main, which prints the stderr
message naming a log file and then returns without sys.exit, so the
process exits with status 0, not non-zero as the claim requires; a run
aborted by the snapshot wait timeout raises SnapshotError, which main
does not catch, so the process exits 1 via a traceback without the
stderr message naming the log file; a fully successful run exits 0. -/
theorem aborted_run_exits_zero :
    (run1 envC4x).2 = Outcome.copyFailed 0 ∧ mainRun envC4x = (0, true) ∧
    (run1 envC4to).2 = Outcome.snapTimeout ∧ mainRun envC4to = (1, false) ∧
    (run1 envC4ok).2 = Outcome.ok ∧ mainRun envC4ok = (0, false) := by decide

/-- C8: with a resolver stub that reports the device absent for the first
k scans and present (as block device d) thereafter, Backup._find_data_disk
returns the device path /dev/d when k is below the bound of 6 attempts,
and fails with DeviceNotFound once k meets or exceeds the bound. -/
theorem find_data_disk_retry_bound (k : Nat) (d : String) :
    (k < 6 → findDataDisk (stubScan k d) = Except.ok ("/dev/" ++ d)) ∧
    (6 ≤ k → findDataDisk (stubScan k d) = Except.error Err.deviceNotFound) := by
  constructor
  · intro h
    exact findLoop_stub_ok k d 6 0 (by omega) (by omega)
  · intro h
    exact findLoop_stub_err k d 6 0 (by omega)

theorem find_data_disk_retry_bound_witness :
    findDataDisk (stubScan 3 "vdb") = Except.ok ("/dev/" ++ "vdb") ∧
    findDataDisk (stubScan 6 "vdb") = Except.error Err.deviceNotFound :=
  ⟨(find_data_disk_retry_bound 3 "vdb").1 (by decide),
   (find_data_disk_retry_bound 6 "vdb").2 (by decide)⟩

end OvirtBackup
